import Mathlib

/-!
Verification of the Product Store service (model and route layers).

The development shallowly embeds the Python source:

* `src/service/models.py` — the `Category` enum, the `Product` entity and its
  `serialize` / `deserialize` contract;
* `src/service/routes.py` — the `list_products`, `create_products`,
  `update_products` and `delete_products` request handlers together with
  `check_content_type`.

Python dictionaries/JSON bodies are modelled by `JsonValue`; Python runtime
exceptions relevant to the embedded code by `PyError`.  Machine floats are
modelled as rationals; the claims settled here never depend on rounding, only
on whether a value coerces to a number at all.
-/

namespace ProductStore

/-- A JSON-like Python value: the payloads `request.get_json()` can hand to
`Product.deserialize`.  Objects are association lists with distinct keys
(a Python dict cannot hold duplicate keys); lookup takes the first binding. -/
inductive JsonValue where
  | null
  | bool (b : Bool)
  | num (q : ℚ)
  | str (s : String)
  | arr (elems : List JsonValue)
  | obj (fields : List (String × JsonValue))

/-- A Python dict, as produced by parsing a JSON object body. -/
abbrev JsonObject := List (String × JsonValue)

/-- The Python exceptions the embedded code can raise.  Message strings mirror
CPython's wording where it matters to the source (`KeyError` and `ValueError`
feed the `DataValidationError` messages); the others are abbreviated. -/
inductive PyError where
  | keyError (key : String)
  | valueError (msg : String)
  | typeError (msg : String)
  | attributeError (msg : String)
deriving DecidableEq

/-- `class Category(Enum)` from `src/service/models.py` (lines 14-20). -/
inductive Category where
  | ELECTRONICS
  | CLOTHING
  | FOOD
  | BOOKS
  | OTHER
deriving DecidableEq

/-- The enum member's `.value`: the canonical-case string label. -/
def Category.value : Category → String
  | .ELECTRONICS => "Electronics"
  | .CLOTHING => "Clothing"
  | .FOOD => "Food"
  | .BOOKS => "Books"
  | .OTHER => "Other"

/-- The enum member's `.name` (the Python identifier of the member). -/
def Category.enumName : Category → String
  | .ELECTRONICS => "ELECTRONICS"
  | .CLOTHING => "CLOTHING"
  | .FOOD => "FOOD"
  | .BOOKS => "BOOKS"
  | .OTHER => "OTHER"

/-- `Category[s]`: Python Enum item lookup by member name; a miss raises
`KeyError(s)` (modelled by returning `none`). -/
def categoryBracket (s : String) : Option Category :=
  if s = "ELECTRONICS" then some .ELECTRONICS
  else if s = "CLOTHING" then some .CLOTHING
  else if s = "FOOD" then some .FOOD
  else if s = "BOOKS" then some .BOOKS
  else if s = "OTHER" then some .OTHER
  else none

/-- `str.upper()` restricted to ASCII, written over the character list so that
it evaluates by kernel reduction (the category labels are ASCII). -/
def pyUpperString (s : String) : String :=
  ⟨s.data.map Char.toUpper⟩

/-- `str.lower()` (ASCII), used by the availability filter in the list route. -/
def pyLowerString (s : String) : String :=
  ⟨s.data.map Char.toLower⟩

/-- The in-memory `Product` entity as `deserialize` manipulates it.  The
Python assignments `self.name = data["name"]`, `self.description = ...` and
`self.available = ...` perform no type check, so those attributes can hold any
JSON value; `category` and `price` only ever receive an enum member resp. the
result of `float(...)`.  A freshly constructed `Product()` has every attribute
`None` (`id` unset). -/
structure Product where
  id : Option Int
  name : JsonValue
  description : JsonValue
  category : Option Category
  available : JsonValue
  price : Option ℚ

/-- `Product()`: all attributes unset (`None`). -/
def freshProduct : Product :=
  { id := none, name := .null, description := .null, category := none,
    available := .null, price := none }

/-- `data[key]` on a Python value: a missing key raises `KeyError`, a
non-mapping receiver raises `TypeError`. -/
def getItem (data : JsonValue) (key : String) : Except PyError JsonValue :=
  match data with
  | .obj fields =>
      match fields.lookup key with
      | some v => .ok v
      | none => .error (.keyError key)
  | .null => .error (.typeError "'NoneType' object is not subscriptable")
  | .bool _ => .error (.typeError "'bool' object is not subscriptable")
  | .num _ => .error (.typeError "'int' object is not subscriptable")
  | .str _ => .error (.typeError "string indices must be integers")
  | .arr _ => .error (.typeError "list indices must be integers or slices, not str")

/-- `data.get(key, default)`: total on dicts; on anything else Python raises
`AttributeError` (never reached by `deserialize`, which subscripts first). -/
def pyGetDefault (data : JsonValue) (key : String) (dfl : JsonValue) :
    Except PyError JsonValue :=
  match data with
  | .obj fields => .ok ((fields.lookup key).getD dfl)
  | _ => .error (.attributeError "object has no attribute 'get'")

/-- `value.upper()`: defined on strings; anything else raises
`AttributeError`. -/
def pyUpper (v : JsonValue) : Except PyError String :=
  match v with
  | .str s => .ok (pyUpperString s)
  | _ => .error (.attributeError "object has no attribute 'upper'")

/-- True on the ASCII whitespace characters `float()` strips. -/
def isPySpace (c : Char) : Bool :=
  c = ' ' || c = '\t' || c = '\n' || c = '\r' || c = '\x0b' || c = '\x0c'

/-- Strip leading and trailing whitespace from a character list. -/
def stripChars (cs : List Char) : List Char :=
  ((cs.dropWhile isPySpace).reverse.dropWhile isPySpace).reverse

/-- Split a character list at the first occurrence of `c`, if any. -/
def splitFirst (c : Char) : List Char → Option (List Char × List Char)
  | [] => none
  | x :: xs =>
      if x = c then some ([], xs)
      else (splitFirst c xs).map (fun p => (x :: p.1, p.2))

/-- Numeric value of a digit string (caller checks `allDigits`). -/
def digitsVal (cs : List Char) : Nat :=
  cs.foldl (fun a c => a * 10 + (c.toNat - 48)) 0

/-- All characters are decimal digits. -/
def allDigits (cs : List Char) : Bool :=
  cs.all Char.isDigit

/-- Parse the mantissa of a Python float literal: digits with an optional
decimal point, at least one digit present. -/
def parseMantissa (cs : List Char) : Option ℚ :=
  match splitFirst '.' cs with
  | none =>
      if cs ≠ [] ∧ allDigits cs then some (digitsVal cs) else none
  | some (ip, fp) =>
      if (ip ≠ [] ∨ fp ≠ []) ∧ allDigits ip ∧ allDigits fp then
        some ((digitsVal ip : ℚ) + (digitsVal fp : ℚ) / (10 : ℚ) ^ fp.length)
      else none

/-- Parse an optionally signed digit run (a float literal's exponent). -/
def parseExponent (cs : List Char) : Option Int :=
  match cs with
  | '+' :: rest =>
      if rest ≠ [] ∧ allDigits rest then some (digitsVal rest : Int) else none
  | '-' :: rest =>
      if rest ≠ [] ∧ allDigits rest then some (-(digitsVal rest : Int)) else none
  | _ =>
      if cs ≠ [] ∧ allDigits cs then some (digitsVal cs : Int) else none

/-- Apply a decimal exponent to a rational. -/
def applyExponent (m : ℚ) (e : Int) : ℚ :=
  if 0 ≤ e then m * (10 : ℚ) ^ e.toNat else m / (10 : ℚ) ^ (-e).toNat

/-- Parse an unsigned Python float literal (mantissa with optional
`e`-exponent). -/
def parseUnsignedFloat (cs : List Char) : Option ℚ :=
  match splitFirst 'e' cs with
  | none => parseMantissa cs
  | some (m, e) =>
      match parseMantissa m, parseExponent e with
      | some mv, some ev => some (applyExponent mv ev)
      | _, _ => none

/-- `float(s)` on a string: strip whitespace, lowercase, optional sign, then
mantissa and exponent.  The special values `inf`/`infinity`/`nan` and digit
underscores have no finite rational meaning and are not modelled; no claim
settled here touches them. -/
def pyFloatOfString (s : String) : Option ℚ :=
  match stripChars (pyLowerString s).data with
  | '+' :: rest => parseUnsignedFloat rest
  | '-' :: rest => (parseUnsignedFloat rest).map Neg.neg
  | cs => parseUnsignedFloat cs

/-- `float(value)` on a Python value: numbers pass through, booleans coerce to
`1`/`0`, strings are parsed (failure raises `ValueError`), and `None`, lists
and dicts raise `TypeError`. -/
def pyFloat (v : JsonValue) : Except PyError ℚ :=
  match v with
  | .num q => .ok q
  | .bool b => .ok (if b then 1 else 0)
  | .str s =>
      match pyFloatOfString s with
      | some q => .ok q
      | none =>
          .error (.valueError ("could not convert string to float: '" ++ s ++ "'"))
  | .null =>
      .error (.typeError "float() argument must be a string or a real number, not 'NoneType'")
  | .arr _ =>
      .error (.typeError "float() argument must be a string or a real number, not 'list'")
  | .obj _ =>
      .error (.typeError "float() argument must be a string or a real number, not 'dict'")

/-- How a call to `Product.deserialize` ends: normal return, a raised
`DataValidationError`, or a Python exception that escapes uncaught. -/
inductive DeserializeResult where
  | ok
  | validationError (msg : String)
  | pythonError (e : PyError)
deriving DecidableEq

/-- The two `except` clauses of `Product.deserialize` (models.py lines 62-65):
`KeyError` and `ValueError` become `DataValidationError` with the source's
f-string messages (`str(KeyError(k))` prints the key in quotes); every other
exception escapes uncaught. -/
def catchClauses : PyError → DeserializeResult
  | .keyError k => .validationError ("Missing key: '" ++ k ++ "'")
  | .valueError m => .validationError ("Invalid value: " ++ m)
  | e => .pythonError e

/-- `Product.deserialize(self, data)` (models.py lines 55-65), as the Python
interpreter executes it: the five assignments run in order inside the `try`
block, each raised exception aborts the block at its own assignment (leaving
the earlier assignments in place) and is then dispatched by `catchClauses`.
Returns the entity as mutated together with how the call ended. -/
def deserialize (p : Product) (data : JsonValue) : Product × DeserializeResult :=
  match getItem data "name" with
  | .error e => (p, catchClauses e)
  | .ok nameVal =>
    match pyGetDefault data "description" (.str "") with
    | .error e => ({ p with name := nameVal }, catchClauses e)
    | .ok descVal =>
      match getItem data "category" with
      | .error e =>
          ({ p with name := nameVal, description := descVal }, catchClauses e)
      | .ok catVal =>
        match pyUpper catVal with
        | .error e =>
            ({ p with name := nameVal, description := descVal }, catchClauses e)
        | .ok upperLabel =>
          match categoryBracket upperLabel with
          | none =>
              ({ p with name := nameVal, description := descVal },
               catchClauses (.keyError upperLabel))
          | some cat =>
            match pyGetDefault data "available" (.bool true) with
            | .error e =>
                ({ p with
                    name := nameVal, description := descVal,
                    category := some cat }, catchClauses e)
            | .ok availVal =>
              match getItem data "price" with
              | .error e =>
                  ({ p with
                      name := nameVal, description := descVal,
                      category := some cat, available := availVal },
                   catchClauses e)
              | .ok priceVal =>
                match pyFloat priceVal with
                | .error e =>
                    ({ p with
                        name := nameVal, description := descVal,
                        category := some cat, available := availVal },
                     catchClauses e)
                | .ok q =>
                    ({ p with
                        name := nameVal, description := descVal,
                        category := some cat, available := availVal,
                        price := some q }, .ok)

/-- `self.id` rendered into the serialized dict. -/
def jsonOfOptId : Option Int → JsonValue
  | none => .null
  | some i => .num (i : ℚ)

/-- `self.price` rendered into the serialized dict. -/
def jsonOfOptPrice : Option ℚ → JsonValue
  | none => .null
  | some q => .num q

/-- `Product.serialize(self)` (models.py lines 45-53): the dict literal in
source order.  `self.category.value` on an unset category would raise
`AttributeError`; on a populated entity the call always succeeds. -/
def serialize (p : Product) : Except PyError JsonObject :=
  match p.category with
  | none => .error (.attributeError "'NoneType' object has no attribute 'value'")
  | some c =>
      .ok [("id", jsonOfOptId p.id),
           ("name", p.name),
           ("description", p.description),
           ("category", .str c.value),
           ("available", p.available),
           ("price", jsonOfOptPrice p.price)]

/-! ## Route layer (`src/service/routes.py`)

The database table `products` is modelled as a list of typed rows (the column
types of the SQLAlchemy model: integer key, strings, non-null enum category,
boolean, float).  `Product.query.get` is primary-key lookup, so stored ids are
pairwise distinct; theorems that need that invariant take it as a
hypothesis. -/

/-- A persisted row of the `products` table. -/
structure ProductRow where
  id : Nat
  name : String
  description : String
  category : Category
  available : Bool
  price : ℚ
deriving DecidableEq

/-- `Product.serialize` on a persisted row (every attribute populated and
typed by its column). -/
def rowSerialize (r : ProductRow) : JsonObject :=
  [("id", .num (r.id : ℚ)),
   ("name", .str r.name),
   ("description", .str r.description),
   ("category", .str r.category.value),
   ("available", .bool r.available),
   ("price", .num r.price)]

/-- `Product.query.get(product_id)`: primary-key lookup. -/
def queryGet (store : List ProductRow) (pid : Nat) : Option ProductRow :=
  store.find? (fun r => r.id == pid)

/-- Python truthiness of `request.args.get(k)`: `None` (parameter absent) and
the empty string are falsy; any other string is truthy. -/
def isTruthy : Option String → Bool
  | none => false
  | some s => s ≠ ""

/-- `available_str.lower() in ["true", "1", "yes"]` (routes.py line 54). -/
def parseAvailableParam (s : String) : Bool :=
  pyLowerString s = "true" || pyLowerString s = "1" || pyLowerString s = "yes"

/-- The category comparison target of `filter_by`: `Category[...]` on a hit,
`None` on a `KeyError` (routes.py lines 48-52).  No stored row has a `NULL`
category (the column is `nullable=False`), so comparing against `none` never
matches. -/
def rowMatchesCategory (target : Option Category) (r : ProductRow) : Bool :=
  match target with
  | some c => r.category == c
  | none => false

/-- `list_products` (routes.py lines 38-58): read the three query parameters,
apply at most one `filter_by` chosen by the `if/elif` chain on Python
truthiness, serialize every surviving row, status 200. -/
def list_products (store : List ProductRow) (nameQ categoryQ availQ : Option String) :
    List JsonObject × Nat :=
  let rows :=
    if isTruthy nameQ then
      store.filter (fun r => r.name == nameQ.getD "")
    else if isTruthy categoryQ then
      let target := categoryBracket (pyUpperString (categoryQ.getD ""))
      store.filter (rowMatchesCategory target)
    else if isTruthy availQ then
      store.filter (fun r => r.available == parseAvailableParam (availQ.getD ""))
    else
      store
  (rows.map rowSerialize, 200)

/-- `check_content_type("application/json")` (routes.py lines 9-17): aborts
with 415 when the `Content-Type` header is absent or differs from the expected
string by exact string comparison.  `none` models an absent header. -/
def check_content_type (header : Option String) (expected : String) : Option Nat :=
  match header with
  | none => some 415
  | some v => if v ≠ expected then some 415 else none

/-- The next auto-increment primary key the database would assign. -/
def nextId (store : List ProductRow) : Nat :=
  (store.map (fun r => r.id)).foldr Nat.max 0 + 1

/-- Commit a deserialized in-memory entity to a row with key `pid`.  The
claims proved here never reach the ill-typed branch; a value the column type
rejects is modelled as a storage failure (`none`, surfaced as 500). -/
def rowOfProduct (pid : Nat) (p : Product) : Option ProductRow :=
  match p.name, p.description, p.category, p.available, p.price with
  | .str n, .str d, some c, .bool b, some q =>
      some { id := pid, name := n, description := d, category := c,
             available := b, price := q }
  | _, _, _, _, _ => none

/-- A persisted row read back as the in-memory entity `deserialize` mutates
on a `PUT`. -/
def productOfRow (r : ProductRow) : Product :=
  { id := some (r.id : Int), name := .str r.name, description := .str r.description,
    category := some r.category, available := .bool r.available,
    price := some r.price }

/-- `create_products` (routes.py lines 27-36): content-type guard first (the
body is neither parsed nor the store consulted on a 415), then `deserialize`
into a fresh entity — a `DataValidationError` is mapped to 400 by the error
handler, any other exception to 500 — then commit with a store-assigned id and
answer 201.  The response pairs the resulting store with the status code; the
201 body and `Location` header are not needed by any claim. -/
def create_products (store : List ProductRow) (contentType : Option String)
    (body : JsonValue) : List ProductRow × Nat :=
  match check_content_type contentType "application/json" with
  | some code => (store, code)
  | none =>
      let res := deserialize freshProduct body
      match res.2 with
      | .validationError _ => (store, 400)
      | .pythonError _ => (store, 500)
      | .ok =>
          match rowOfProduct (nextId store) res.1 with
          | some row => (store ++ [row], 201)
          | none => (store, 500)

/-- `update_products` (routes.py lines 67-76): content-type guard, then 404
when the id is absent, then `deserialize` onto the fetched entity and commit.
On a validation failure nothing is committed, so the store is returned
unchanged with 400. -/
def update_products (store : List ProductRow) (pid : Nat)
    (contentType : Option String) (body : JsonValue) : List ProductRow × Nat :=
  match check_content_type contentType "application/json" with
  | some code => (store, code)
  | none =>
      match queryGet store pid with
      | none => (store, 404)
      | some row =>
          let res := deserialize (productOfRow row) body
          match res.2 with
          | .validationError _ => (store, 400)
          | .pythonError _ => (store, 500)
          | .ok =>
              match rowOfProduct row.id res.1 with
              | some row' =>
                  (store.map (fun r => if r.id == row.id then row' else r), 200)
              | none => (store, 500)

/-- `delete_products` (routes.py lines 78-84): fetch by primary key, delete
the row when present, answer 204 with an empty body in every case. -/
def delete_products (store : List ProductRow) (pid : Nat) :
    List ProductRow × Nat × String :=
  match queryGet store pid with
  | some r => (store.erase r, 204, "")
  | none => (store, 204, "")

/-! ## Helper lemmas -/

/-- A successful `Category[s]` lookup pins `s` to the member's name. -/
theorem categoryBracket_eq_enumName {s : String} {c : Category}
    (h : categoryBracket s = some c) : s = c.enumName := by
  unfold categoryBracket at h
  split_ifs at h with h1 h2 h3 h4 h5
  · injection h with hc; subst hc; exact h1
  · injection h with hc; subst hc; exact h2
  · injection h with hc; subst hc; exact h3
  · injection h with hc; subst hc; exact h4
  · injection h with hc; subst hc; exact h5

/-- Uppercasing a canonical label gives the member name, for every member. -/
theorem value_upper_eq_enumName (c : Category) :
    pyUpperString c.value = c.enumName := by
  cases c <;> decide

/-! ## Claims about `Product.deserialize` and `Product.serialize` -/

/-- C9: the id field is never taken from client input — `deserialize` never
assigns `self.id`, so on every input (mapping or not, succeeding or failing,
with or without an `id` key) the entity's id is exactly what it was before the
call. -/
theorem deserialize_preserves_id (p : Product) (data : JsonValue) :
    (deserialize p data).1.id = p.id := by
  unfold deserialize
  repeat' split
  all_goals rfl

/-- The concrete entity of the C3 counterexample: a populated product. -/
def c3Product : Product :=
  { id := some 7, name := .str "old", description := .str "keep",
    category := some .FOOD, available := .bool true, price := some 5 }

/-- The C3 counterexample input: valid name and price, unknown category, so
`deserialize` fails only at the third assignment. -/
def c3Data : JsonValue :=
  .obj [("name", .str "new"), ("category", .str "NOPE"), ("price", .num 1)]

/-- C3 (counterexample): `deserialize` assigns as it goes, so a failed call
is observably mutating — on `c3Data` the call fails with a validation error,
yet the entity's name has already been overwritten. -/
theorem deserialize_failure_mutates_name :
    (deserialize c3Product c3Data).2 = .validationError "Missing key: 'NOPE'" ∧
    (deserialize c3Product c3Data).1.name ≠ c3Product.name := by
  refine ⟨rfl, ?_⟩
  intro h
  have h2 : JsonValue.str "new" = JsonValue.str "old" := h
  injection h2 with h3
  exact absurd h3 (by decide)

/-- C3 (amended): the assignments run in source order with `price` last and
`id` never assigned, so a failed `deserialize` leaves `id` and `price`
unchanged; fields assigned before the failing step may hold input-derived
values (`deserialize_failure_mutates_name` shows `name` can change). -/
theorem deserialize_failure_preserves_id_price (p : Product) (data : JsonValue)
    (h : (deserialize p data).2 ≠ .ok) :
    (deserialize p data).1.id = p.id ∧ (deserialize p data).1.price = p.price := by
  revert h
  unfold deserialize
  repeat' split
  all_goals intro h
  all_goals first
    | exact absurd rfl h
    | exact ⟨rfl, rfl⟩

/-- C3 (witness): the amended frame property at the counterexample's input. -/
theorem deserialize_failure_preserves_id_price_witness :
    (deserialize c3Product c3Data).2 ≠ .ok ∧
    (deserialize c3Product c3Data).1.id = c3Product.id ∧
    (deserialize c3Product c3Data).1.price = c3Product.price :=
  ⟨by decide, deserialize_failure_preserves_id_price c3Product c3Data (by decide)⟩

/-- The C2 failing input: all three required keys present, category valid,
but a `null` price, which `float()` rejects with `TypeError`, an exception the
`except` clauses of `deserialize` do not catch. -/
def c2FailingInput : JsonValue :=
  .obj [("name", .str "Hat"), ("category", .str "Food"), ("price", .null)]

/-- C2 (code bug): on a mapping whose price cannot be coerced to a number
because it is `null`, `deserialize` does not fail with a validation error as
the spec requires — `float(None)` raises `TypeError`, which escapes uncaught
(the source catches only `KeyError` and `ValueError`, though the repository's
own test suite expects `TypeError` to be converted to `DataValidationError`). -/
theorem deserialize_null_price_uncaught :
    (deserialize freshProduct c2FailingInput).2 =
      .pythonError (.typeError
        "float() argument must be a string or a real number, not 'NoneType'") ∧
    ∀ msg, (deserialize freshProduct c2FailingInput).2 ≠ .validationError msg := by
  refine ⟨rfl, ?_⟩
  intro msg h
  have h2 : DeserializeResult.pythonError (.typeError
      "float() argument must be a string or a real number, not 'NoneType'") =
      .validationError msg := h
  exact DeserializeResult.noConfusion h2

/-- C4 (code bug): on an input that is not a mapping at all, `deserialize`
raises an uncaught `TypeError` instead of a validation error — subscripting
`123` fails before any `except` clause matches, and the entity is untouched.
The repository's own test `test_deserialize_with_type_error` asserts that this
very input raises `DataValidationError`. -/
theorem deserialize_non_mapping_uncaught :
    (deserialize freshProduct (.num 123)).2 =
      .pythonError (.typeError "'int' object is not subscriptable") ∧
    (deserialize freshProduct (.num 123)).1 = freshProduct ∧
    ∀ msg, (deserialize freshProduct (.num 123)).2 ≠ .validationError msg := by
  refine ⟨rfl, rfl, ?_⟩
  intro msg h
  have h2 : DeserializeResult.pythonError
      (.typeError "'int' object is not subscriptable") = .validationError msg := h
  exact DeserializeResult.noConfusion h2

/-- The C8 counterexample input: an empty-string name with valid category and
price. -/
def c8Data : JsonValue :=
  .obj [("name", .str ""), ("category", .str "Food"), ("price", .num 1)]

/-- C8 (counterexample): `deserialize` succeeds on an empty-string name — the
source assigns `data["name"]` without any non-emptiness check, so creating a
product with an empty name is accepted, not a 400. -/
theorem deserialize_accepts_empty_name :
    (deserialize freshProduct c8Data).2 = .ok ∧
    (deserialize freshProduct c8Data).1.name = .str "" :=
  ⟨rfl, rfl⟩

/-- C8 (amended): the name key is required — a mapping without it fails with
the validation error of the `KeyError` clause — but the value itself is not
validated, so the empty string passes (`deserialize_accepts_empty_name`). -/
theorem deserialize_missing_name_validation_error
    (fields : JsonObject) (h : fields.lookup "name" = none) :
    (deserialize freshProduct (.obj fields)).2 =
      .validationError "Missing key: 'name'" := by
  have hg : getItem (.obj fields) "name" = .error (.keyError "name") := by
    simp [getItem, h]
  unfold deserialize
  rw [hg]
  rfl

/-- C8 (witness): the amended missing-name rule at a concrete mapping. -/
theorem deserialize_missing_name_validation_error_witness :
    (deserialize freshProduct
      (.obj [("category", .str "Food"), ("price", .num 1)])).2 =
      .validationError "Missing key: 'name'" :=
  deserialize_missing_name_validation_error
    [("category", .str "Food"), ("price", .num 1)] rfl

/-- C1: deserialize-then-serialize round trip.  For every mapping whose
required keys are present and valid — a `name` value, a string `category`
label that matches an enumerated category case-insensitively, a `price` value
that coerces to a number — `deserialize` succeeds and the following
`serialize` reproduces the logical input values: the name as sent, the
description (defaulting to the empty string), the category label in canonical
case (same label as the input up to case, last conjunct), the availability
flag (defaulting to true), and the price coerced to numeric.  The `id` field
is `null`: it is store-assigned, never taken from the input. -/
theorem deserialize_serialize_round_trip
    (fields : JsonObject) (nameVal : JsonValue) (catLabel : String)
    (priceVal : JsonValue) (q : ℚ) (cat : Category)
    (hname : fields.lookup "name" = some nameVal)
    (hcat : fields.lookup "category" = some (.str catLabel))
    (hmatch : categoryBracket (pyUpperString catLabel) = some cat)
    (hprice : fields.lookup "price" = some priceVal)
    (hq : pyFloat priceVal = .ok q) :
    (deserialize freshProduct (.obj fields)).2 = .ok ∧
    serialize (deserialize freshProduct (.obj fields)).1 =
      .ok [("id", .null),
           ("name", nameVal),
           ("description", (fields.lookup "description").getD (.str "")),
           ("category", .str cat.value),
           ("available", (fields.lookup "available").getD (.bool true)),
           ("price", .num q)] ∧
    pyUpperString cat.value = pyUpperString catLabel := by
  have hlabel : pyUpperString catLabel = cat.enumName :=
    categoryBracket_eq_enumName hmatch
  refine ⟨?_, ?_, ?_⟩
  · simp [deserialize, getItem, pyGetDefault, pyUpper, hname, hcat, hmatch, hq,
          hprice]
  · simp [deserialize, serialize, getItem, pyGetDefault, pyUpper, freshProduct,
          hname, hcat, hmatch, hprice, hq, jsonOfOptId, jsonOfOptPrice]
  · rw [value_upper_eq_enumName, hlabel]

/-- The C1 witness mapping: category label in mixed case, numeric price. -/
def c1Fields : JsonObject :=
  [("name", .str "Hat"), ("category", .str "fOoD"), ("price", .num 12)]

/-- C1 (witness): the round trip at a concrete mapping. -/
theorem deserialize_serialize_round_trip_witness :
    (deserialize freshProduct (.obj c1Fields)).2 = .ok ∧
    serialize (deserialize freshProduct (.obj c1Fields)).1 =
      .ok [("id", .null),
           ("name", .str "Hat"),
           ("description", (c1Fields.lookup "description").getD (.str "")),
           ("category", .str Category.FOOD.value),
           ("available", (c1Fields.lookup "available").getD (.bool true)),
           ("price", .num 12)] ∧
    pyUpperString Category.FOOD.value = pyUpperString "fOoD" :=
  deserialize_serialize_round_trip c1Fields (.str "Hat") "fOoD" (.num 12) 12
    .FOOD rfl rfl (by decide) rfl rfl

/-! ## Claims about the route layer -/

/-- C5 (counterexample): a store with a single product whose name is the
empty string, queried with the name parameter present (as the empty string)
and a category parameter.  Name filtering is not the filter applied — the
name-filtered list has one element but the route answers with none (the
category filter ran instead), refuting first-match-on-presence. -/
def c5Row : ProductRow :=
  { id := 1, name := "", description := "", category := .ELECTRONICS,
    available := true, price := 1 }

/-- C5 (counterexample theorem): with the name parameter present but empty,
the route's result differs from the name-filtered result. -/
theorem empty_name_param_not_name_filtered :
    (list_products [c5Row] (some "") (some "Food") none).1.length = 0 ∧
    (([c5Row].filter (fun r => r.name == "")).map rowSerialize).length = 1 :=
  ⟨rfl, rfl⟩

/-- C5 (amended): at most one filter is applied, in priority order name,
category, available — where a query parameter counts as supplied only when it
is present AND non-empty (Python truthiness); an empty-valued parameter is
skipped.  The applied filter's outcome is independent of the lower-priority
parameters. -/
theorem list_products_filter_priority
    (store : List ProductRow) (n c a : Option String) :
    (isTruthy n = true →
        list_products store n c a = list_products store n none none
        ∧ list_products store n c a =
            ((store.filter (fun r => r.name == n.getD "")).map rowSerialize, 200))
    ∧ (isTruthy n = false → isTruthy c = true →
        list_products store n c a = list_products store none c none
        ∧ list_products store n c a =
            ((store.filter (rowMatchesCategory
                (categoryBracket (pyUpperString (c.getD ""))))).map rowSerialize,
             200))
    ∧ (isTruthy n = false → isTruthy c = false → isTruthy a = true →
        list_products store n c a =
          ((store.filter
              (fun r => r.available == parseAvailableParam (a.getD ""))).map
            rowSerialize, 200))
    ∧ (isTruthy n = false → isTruthy c = false → isTruthy a = false →
        list_products store n c a = (store.map rowSerialize, 200)) := by
  have hnone : isTruthy none = false := rfl
  refine ⟨fun h1 => ⟨?_, ?_⟩, fun h1 h2 => ⟨?_, ?_⟩, fun h1 h2 h3 => ?_,
          fun h1 h2 h3 => ?_⟩
  · simp [list_products, h1, hnone]
  · simp [list_products, h1]
  · simp [list_products, h1, h2, hnone]
  · simp [list_products, h1, h2]
  · simp [list_products, h1, h2, h3]
  · simp [list_products, h1, h2, h3]

/-- C5 (witness): the amended priority at concrete inputs — the name
parameter is empty so the non-empty category parameter is the one applied,
independently of the supplied availability parameter. -/
theorem list_products_filter_priority_witness :
    list_products [c5Row] (some "") (some "Food") (some "yes") =
        list_products [c5Row] none (some "Food") none ∧
    list_products [c5Row] (some "") (some "Food") (some "yes") =
        (([c5Row].filter (rowMatchesCategory
            (categoryBracket (pyUpperString ((some "Food").getD ""))))).map
          rowSerialize, 200) :=
  (list_products_filter_priority [c5Row] (some "") (some "Food")
    (some "yes")).2.1 rfl rfl

/-- C6 (counterexample): a request whose category parameter matches no
enumerated label can still return a non-empty list, because a non-empty name
parameter takes priority: the name filter runs and matches a stored row. -/
def c6Row : ProductRow :=
  { id := 1, name := "Hat", description := "", category := .FOOD,
    available := true, price := 1 }

/-- C6 (counterexample theorem): category label unmatched, yet the response
holds one product, not the empty list. -/
theorem unknown_category_with_name_param_nonempty :
    categoryBracket (pyUpperString "Bogus") = none ∧
    (list_products [c6Row] (some "Hat") (some "Bogus") none).1.length = 1 := by
  exact ⟨by decide, rfl⟩

/-- C6 (amended): when the category filter is the one applied — the category
parameter is present and non-empty and no non-empty name parameter is supplied
— an unmatched label (case-insensitively) yields 200 with the empty result
list for every store and availability parameter: the route falls back to
filtering on an impossible `None` category instead of erroring. -/
theorem list_products_unknown_category_empty
    (store : List ProductRow) (n c a : Option String) (s : String)
    (hn : isTruthy n = false) (hc : c = some s) (hs : s ≠ "")
    (hmiss : categoryBracket (pyUpperString s) = none) :
    list_products store n c a = ([], 200) := by
  subst hc
  have hcs : isTruthy (some s) = true := by simp [isTruthy, hs]
  simp [list_products, hn, hcs, hmiss, rowMatchesCategory]

/-- C6 (witness): the amended rule at a concrete store and label. -/
theorem list_products_unknown_category_empty_witness :
    list_products [c6Row] none (some "Bogus") (some "true") = ([], 200) :=
  list_products_unknown_category_empty [c6Row] none (some "Bogus")
    (some "true") "Bogus" rfl rfl (by decide) (by decide)

/-- C7: DELETE is idempotent and never an error.  Under the primary-key
invariant (stored ids pairwise distinct), `delete_products` answers 204 with
an empty body whether or not the id is present, and a `find` on that id after
the call returns absent. -/
theorem delete_products_idempotent_204
    (store : List ProductRow) (pid : Nat)
    (h : (store.map (fun r => r.id)).Nodup) :
    (delete_products store pid).2 = (204, "") ∧
    queryGet (delete_products store pid).1 pid = none := by
  cases hf : queryGet store pid with
  | none =>
      refine ⟨by simp [delete_products, hf], ?_⟩
      simp [delete_products, hf]
  | some r =>
      refine ⟨by simp [delete_products, hf], ?_⟩
      have hr_mem : r ∈ store := List.mem_of_find?_eq_some hf
      have hr_id : r.id = pid := by
        have := List.find?_some hf
        simpa using this
      simp only [delete_products, hf]
      rw [queryGet, List.find?_eq_none]
      intro x hx hbeq
      have hx_mem : x ∈ store := List.mem_of_mem_erase hx
      have hxid : x.id = pid := by simpa using hbeq
      have hxr : x = r :=
        List.inj_on_of_nodup_map h hx_mem hr_mem (by rw [hxid, hr_id])
      subst hxr
      have hnd : store.Nodup := List.Nodup.of_map _ h
      exact ((List.Nodup.mem_erase_iff hnd).mp hx).1 rfl

/-- C7 (witness): deleting a present id and then an absent one, on a
concrete two-row store with distinct ids. -/
theorem delete_products_idempotent_204_witness :
    (delete_products [c6Row] 1).2 = (204, "") ∧
    queryGet (delete_products [c6Row] 1).1 1 = none :=
  delete_products_idempotent_204 [c6Row] 1 (by decide)

/-- C10: the content-type guard on POST and PUT accepts exactly the string
"application/json".  For every other header — absent, parameterized with a
charset, differently cased — both routes answer 415 with the store untouched,
for every body and path id: the guard runs before the body is parsed or the
store consulted, so the outcome is independent of both. -/
theorem content_type_guard_415
    (store : List ProductRow) (pid : Nat) (ct : Option String)
    (body : JsonValue) (h : ct ≠ some "application/json") :
    create_products store ct body = (store, 415) ∧
    update_products store pid ct body = (store, 415) := by
  have hc : check_content_type ct "application/json" = some 415 := by
    cases ct with
    | none => rfl
    | some v =>
        have hv : v ≠ "application/json" := fun e => h (by rw [e])
        simp [check_content_type, hv]
  exact ⟨by simp [create_products, hc], by simp [update_products, hc]⟩

/-- C10 (witness): a charset-qualified JSON content type is rejected by both
routes with the store unchanged. -/
theorem content_type_guard_415_witness :
    create_products [c6Row] (some "application/json; charset=utf-8") .null =
        ([c6Row], 415) ∧
    update_products [c6Row] 1 (some "application/json; charset=utf-8") .null =
        ([c6Row], 415) :=
  content_type_guard_415 [c6Row] 1 (some "application/json; charset=utf-8")
    .null (by decide)

end ProductStore
